import Mathlib

/-!
Verification development for the mekus-virtual-canvas repository.

The Python sources (src/main.py, src/modules/hand_tracker.py,
src/modules/menu.py, src/modules/drawing.py) are shallowly embedded below:
pure functions become Lean functions, the mutable object state of
`HandTracker`, `Menu` and `VirtualCanvas` becomes explicit state records
threaded through step functions, and the per-frame processing loop becomes
a fold over a list of per-frame observations.

MediaPipe landmark detection is external to the repository; a frame's
detection result is modelled as a list of `Hand` observations, each
carrying the four joint y-coordinates (as rationals, standing for the
detector's floating-point normalized coordinates) of the index and middle
fingers together with the pixel position of the index fingertip (the
result of `normalize_coordinates` on the index TIP landmark, which is the
only landmark position the application consumes).

The OpenCV canvas is modelled at two levels of abstraction, each matching
what the claims quantify over: a pixel buffer `PixelBuf` (for clearing and
compositing, which are pixel-wise assignments in the source) and a trace
of primitive drawing operations `DrawOp` (for stroke continuity, where the
claims speak about which line segments are ever painted, not about
rasterization).
-/

/-- A BGR color triple, as the Python tuples in src/modules/drawing.py. -/
abbrev Color := ℕ × ℕ × ℕ

/-- drawing.py: RED = (0, 0, 255). -/
def RED : Color := (0, 0, 255)

/-- drawing.py: GREEN = (0, 255, 0). -/
def GREEN : Color := (0, 255, 0)

/-- drawing.py: BLUE = (255, 0, 0). -/
def BLUE : Color := (255, 0, 0)

/-- drawing.py: YELLOW = (0, 255, 255). -/
def YELLOW : Color := (0, 255, 255)

/-- drawing.py: PURPLE = (255, 0, 255). -/
def PURPLE : Color := (255, 0, 255)

/-- drawing.py: CYAN = (255, 255, 0). -/
def CYAN : Color := (255, 255, 0)

/-- drawing.py: WHITE = (255, 255, 255). -/
def WHITE : Color := (255, 255, 255)

/-- drawing.py: LIGHT_GRAY = (211, 211, 211). -/
def LIGHT_GRAY : Color := (211, 211, 211)

/-- drawing.py: MID_GRAY = (169, 169, 169). -/
def MID_GRAY : Color := (169, 169, 169)

/-- drawing.py: BLACK = (0, 0, 0). -/
def BLACK : Color := (0, 0, 0)

/-- drawing.py: ORANGE = (0, 165, 255). -/
def ORANGE : Color := (0, 165, 255)

/-- drawing.py: PINK = (203, 192, 255). -/
def PINK : Color := (203, 192, 255)

/-- drawing.py: INDIGO = (130, 0, 75). -/
def INDIGO : Color := (130, 0, 75)

/-- drawing.py: VIOLET = (238, 130, 238). -/
def VIOLET : Color := (238, 130, 238)

/-- drawing.py: the COLORS palette list, in source order. -/
def COLORS : List Color :=
  [RED, GREEN, BLUE, YELLOW, PURPLE, CYAN, WHITE, BLACK, ORANGE, PINK, INDIGO, VIOLET]

/-- A pixel position (x, y) in image coordinates, as produced by
`HandTracker.normalize_coordinates`. -/
abbrev Point := ℤ × ℤ

/-- The four joint y-coordinates of one finger on a detected hand, in the
detector's coordinates (y increases downward), as read by
`HandTracker.is_finger_raised` through the FINGER_LANDMARKS indices
TIP, DIP, PIP, MCP. -/
structure FingerJoints where
  tip : ℚ
  dip : ℚ
  pip : ℚ
  mcp : ℚ
deriving DecidableEq

/-- One detected hand, restricted to the data the application reads: the
index- and middle-finger joint y-coordinates and the pixel position of the
index fingertip. -/
structure Hand where
  index : FingerJoints
  middle : FingerJoints
  index_tip : Point
deriving DecidableEq

/-- hand_tracker.py `HandTracker.is_finger_raised`: a finger is raised iff
the chained strict comparison `tip < dip < pip < mcp` of the four joint
y-coordinates holds. -/
def is_finger_raised (j : FingerJoints) : Bool :=
  decide (j.tip < j.dip) && decide (j.dip < j.pip) && decide (j.pip < j.mcp)

/-- The persistent state of a `HandTracker` instance: the click-debounce
latches `prev_index_up`, `prev_middle_up`, `is_clicked_prev`, the board
drawing-mode flag `is_drawing_mode` and the per-hand `draw_modes` list
(the per-frame landmark result is not part of the persistent state; it is
passed to each step as the frame's list of hands). -/
structure TrackerState where
  prev_index_up : Bool
  prev_middle_up : Bool
  is_clicked_prev : Bool
  is_drawing_mode : Bool
  draw_modes : List Bool
deriving DecidableEq

/-- The tracker state set up by `HandTracker.__init__`. -/
def initTracker : TrackerState :=
  { prev_index_up := false
    prev_middle_up := false
    is_clicked_prev := false
    is_drawing_mode := false
    draw_modes := [] }

/-- hand_tracker.py `HandTracker.is_click_happening`: a click fires iff the
previous frame showed both fingers raised, this frame shows index raised
and middle curled, and no click fired on the previous frame. -/
def is_click_happening (s : TrackerState) (index_up middle_up : Bool) : Bool :=
  s.prev_index_up && s.prev_middle_up && index_up && !middle_up && !s.is_clicked_prev

/-- hand_tracker.py `HandTracker.update_previous_states`: store this
frame's finger states and click result for the next frame. -/
def update_previous_states (s : TrackerState) (index_up middle_up click_happened : Bool) :
    TrackerState :=
  { s with
    prev_index_up := index_up
    prev_middle_up := middle_up
    is_clicked_prev := click_happened }

/-- hand_tracker.py `HandTracker.detect_click`: with no landmarks, return
false without touching any state; otherwise evaluate the click predicate on
the selected hand (index 0) and advance the previous-state latches. -/
def detect_click (s : TrackerState) (hands : List Hand) : Bool × TrackerState :=
  match hands with
  | [] => (false, s)
  | h :: _ =>
    let index_up := is_finger_raised h.index
    let middle_up := is_finger_raised h.middle
    let click_happened := is_click_happening s index_up middle_up
    (click_happened, update_previous_states s index_up middle_up click_happened)

/-- hand_tracker.py `HandTracker.update_drawing_mode` as invoked from
`process_frame` via `draw_raised_fingers`: the draw-modes list is rebuilt
from the detected hands only when at least one hand is present (with no
hands, `draw_raised_fingers` is never called and the list keeps its
previous contents). Each hand's entry is `index_up and not middle_up`. -/
def tracker_process_frame (s : TrackerState) (hands : List Hand) : TrackerState :=
  if hands.isEmpty then s
  else { s with
    draw_modes := hands.map (fun h => is_finger_raised h.index && !is_finger_raised h.middle) }

/-- hand_tracker.py `HandTracker.get_hand_position` restricted to the index
fingertip entry that main.py reads: the selected hand's (index 0) index
fingertip pixel position, or none when no hands are detected. -/
def get_hand_position (hands : List Hand) : Option Point :=
  hands.head?.map (·.index_tip)

/-- hand_tracker.py `HandTracker.toggle_drawing_mode`. -/
def toggle_drawing_mode (s : TrackerState) : TrackerState :=
  { s with is_drawing_mode := !s.is_drawing_mode }

/-- The tracker's per-frame interface as one bundle: update the landmarks
and draw-modes from this frame's detection result, then report the index
fingertip position (`get_hand_position`), the selected hand's draw signal
(`draw_modes[0] if draw_modes else False`, as read by
`VirtualCanvas.get_finger_info`), and the click signal (`detect_click`),
returning the advanced tracker state. -/
def interpreter_update (s : TrackerState) (hands : List Hand) :
    (Option Point × Bool × Bool) × TrackerState :=
  let s1 := tracker_process_frame s hands
  let pos := get_hand_position hands
  let will_draw := s1.draw_modes.headD false
  let (click_happened, s2) := detect_click s1 hands
  ((pos, will_draw, click_happened), s2)

/-- The boolean finger observation fed to one `detect_click` evaluation:
(index raised, middle raised) of the selected hand. -/
abbrev FingerObs := Bool × Bool

/-- The "armed" pose of the click gesture: index and middle both raised. -/
def armedPose : FingerObs := (true, true)

/-- The "released" pose of the click gesture: index raised, middle not. -/
def releasedPose : FingerObs := (true, false)

/-- Run the click state machine (`is_click_happening` followed by
`update_previous_states`, the body of `detect_click` for a present hand)
over a sequence of per-frame finger observations, returning the per-frame
click results. -/
def click_run (s : TrackerState) : List FingerObs → List Bool
  | [] => []
  | o :: rest =>
    let c := is_click_happening s o.1 o.2
    c :: click_run (update_previous_states s o.1 o.2 c) rest

/-- The tracker state after running the click state machine over a
sequence of finger observations. -/
def click_state_after (s : TrackerState) (l : List FingerObs) : TrackerState :=
  l.foldl (fun t o => update_previous_states t o.1 o.2 (is_click_happening t o.1 o.2)) s

/-- menu.py `CircleButton`: a circular button with center, radius, fill
color, label, a pen-size marker and an optional numeric payload.
(Coordinates and radius are the Python ints.) -/
structure Button where
  center_x : ℤ
  center_y : ℤ
  radius : ℤ
  color : Color
  label : String
  is_pen : Bool
  value : Option ℕ
deriving DecidableEq

/-- menu.py `CircleButton.is_over`: squared-distance hit test with strict
inequality against the squared radius. -/
def is_over (b : Button) (x y : ℤ) : Bool :=
  decide ((x - b.center_x) ^ 2 + (y - b.center_y) ^ 2 < b.radius ^ 2)

/-- menu.py `Menu.BUTTON_RADIUS`. -/
def BUTTON_RADIUS : ℤ := 25

/-- menu.py `Menu.TOGGLE_RADIUS`. -/
def TOGGLE_RADIUS : ℤ := 30

/-- menu.py `Menu.BUTTON_SPACING`. -/
def BUTTON_SPACING : ℤ := 75

/-- menu.py `Menu.PEN_SIZE_OFFSET_Y`. -/
def PEN_SIZE_OFFSET_Y : ℤ := 65

/-- The button registry built by menu.py `Menu.__init__` /
`Menu.create_buttons` from the two toggle positions handed over by
`VirtualCanvas.setup_menu`. Only the button data is kept; rendering is
outside the model. -/
structure Menu where
  color_buttons : List Button
  pen_size_buttons : List Button
  shape_buttons : List Button
  clear_button : Button
  board_toggle : Button
  pen_toggle : Button
  color_toggle : Button
  eraser_toggle : Button
deriving DecidableEq

/-- menu.py `Menu.create_color_buttons`: one button per palette color that
is not the white background, capped at MAX_COLORS = 8, laid out leftwards
from the colors-toggle position with BUTTON_SPACING. -/
def create_color_buttons (color_toggle_pos : Point) : List Button :=
  (((COLORS.filter (fun c => c ≠ WHITE)).take 8).enum).map fun ic =>
    { center_x := color_toggle_pos.1 - BUTTON_SPACING - (ic.1 : ℤ) * BUTTON_SPACING
      center_y := color_toggle_pos.2
      radius := BUTTON_RADIUS
      color := ic.2
      label := ""
      is_pen := false
      value := none }

/-- menu.py `Menu.create_pen_size_buttons`: one button per size in
range(PEN_SIZE_MIN, PEN_SIZE_MAX + 1, PEN_SIZE_STEP) = [5, 10, 15, 20, 25, 30],
laid out downwards from the pen-toggle position. -/
def create_pen_size_buttons (pen_toggle_pos : Point) : List Button :=
  ((List.range' 5 6 5).enum).map fun is =>
    { center_x := pen_toggle_pos.1
      center_y := pen_toggle_pos.2 + PEN_SIZE_OFFSET_Y + (is.1 : ℤ) * BUTTON_SPACING
      radius := BUTTON_RADIUS
      color := MID_GRAY
      label := toString is.2
      is_pen := true
      value := some is.2 }

/-- menu.py `Menu.__init__` + `create_buttons`: derive the clear, eraser
and colors-toggle positions from the pen-toggle position (offsets 80 each)
and build every registry. `create_shape_buttons` assigns the empty list. -/
def create_menu (board_toggle_pos pen_toggle_pos : Point) : Menu :=
  let clear_button_pos : Point := (pen_toggle_pos.1 - 80, pen_toggle_pos.2)
  let eraser_button_pos : Point := (clear_button_pos.1 - 80, pen_toggle_pos.2)
  let color_toggle_pos : Point := (eraser_button_pos.1 - 80, pen_toggle_pos.2)
  { color_buttons := create_color_buttons color_toggle_pos
    pen_size_buttons := create_pen_size_buttons pen_toggle_pos
    shape_buttons := []
    clear_button :=
      { center_x := clear_button_pos.1, center_y := clear_button_pos.2
        radius := TOGGLE_RADIUS, color := LIGHT_GRAY, label := "Clear"
        is_pen := false, value := none }
    board_toggle :=
      { center_x := board_toggle_pos.1, center_y := board_toggle_pos.2
        radius := TOGGLE_RADIUS, color := LIGHT_GRAY, label := "Board"
        is_pen := false, value := none }
    pen_toggle :=
      { center_x := pen_toggle_pos.1, center_y := pen_toggle_pos.2
        radius := TOGGLE_RADIUS, color := LIGHT_GRAY, label := "Pen Size"
        is_pen := false, value := none }
    color_toggle :=
      { center_x := color_toggle_pos.1, center_y := color_toggle_pos.2
        radius := TOGGLE_RADIUS, color := LIGHT_GRAY, label := "Colors"
        is_pen := false, value := none }
    eraser_toggle :=
      { center_x := eraser_button_pos.1, center_y := eraser_button_pos.2
        radius := TOGGLE_RADIUS, color := LIGHT_GRAY, label := "Eraser"
        is_pen := false, value := none } }

/-- menu.py `Menu.get_all_buttons`: the fixed iteration order of the
registry. -/
def get_all_buttons (m : Menu) : List Button :=
  m.clear_button :: (m.color_buttons ++ m.pen_size_buttons ++ m.shape_buttons ++
    [m.board_toggle, m.pen_toggle, m.color_toggle, m.eraser_toggle])

/-- Modelled from the spec: the color-name table `COLOR_OPTIONS` that
menu.py imports from modules.drawing but that is absent from the sources.
Per the spec, clicking a color button resolves "a human-readable status
message based on the button's role (color name, ...)"; the table maps each
palette color value to its name. -/
def COLOR_OPTIONS : List (Color × String) :=
  [(RED, "Red"), (GREEN, "Green"), (BLUE, "Blue"), (YELLOW, "Yellow"),
   (PURPLE, "Purple"), (CYAN, "Cyan"), (WHITE, "White"), (BLACK, "Black"),
   (ORANGE, "Orange"), (PINK, "Pink"), (INDIGO, "Indigo"), (VIOLET, "Violet")]

/-- Python `str` of a BGR tuple, the fallback in
`COLOR_OPTIONS.get(tuple(button.color), str(button.color))`. -/
def color_str (c : Color) : String :=
  "(" ++ toString c.1 ++ ", " ++ toString c.2.1 ++ ", " ++ toString c.2.2 ++ ")"

/-- menu.py line 321: look the clicked color up in `COLOR_OPTIONS`, falling
back to the printed tuple. -/
def color_name (c : Color) : String :=
  match COLOR_OPTIONS.find? (fun e => e.1 = c) with
  | some e => e.2
  | none => color_str c

/-- Python `f-string` rendering of a pen size button's `value` payload. -/
def value_str (v : Option ℕ) : String :=
  match v with
  | some n => toString n
  | none => "None"

/-- The body of the `for button in self.get_all_buttons()` loop of menu.py
`Menu.handle_interaction`, walking the remaining registry: skip buttons the
position is not over; at the first hit set the hover target, return none if
not clicking, otherwise run the sequential message updates (the dead
registry-membership guard of line 315 included) and return the button.
Result triple: (activated button, hover target, status message). -/
def handle_interaction_go (m : Menu) (last_message : String) (x y : ℤ)
    (is_clicking : Bool) : List Button → Option Button × Option Button × String
  | [] => (none, none, last_message)
  | b :: rest =>
    if ! is_over b x y then handle_interaction_go m last_message x y is_clicking rest
    else if ! is_clicking then (none, some b, last_message)
    else
      let msg0 := if b ∈ get_all_buttons m then last_message else ""
      let msg1 := if b ∈ m.color_buttons then "Selected Color: " ++ color_name b.color else msg0
      let msg2 := if b ∈ m.pen_size_buttons then "Pen Thickness: " ++ value_str b.value else msg1
      let msg3 := if b = m.eraser_toggle then "Eraser Selected" else msg2
      (some b, some b, msg3)

/-- menu.py `Menu.handle_interaction`: with no position, clear the hover
target and return none leaving the message untouched; otherwise scan the
registry in `get_all_buttons` order. Result triple:
(activated button, hover target, status message). -/
def handle_interaction (m : Menu) (last_message : String) (finger_pos : Option Point)
    (is_clicking : Bool) : Option Button × Option Button × String :=
  match finger_pos with
  | none => (none, none, last_message)
  | some p => handle_interaction_go m last_message p.1 p.2 is_clicking (get_all_buttons m)

/-- A primitive canvas drawing operation issued by
`VirtualCanvas.draw_on_canvas`: either an OpenCV line segment in canvas
coordinates with a color and thickness, or a filled circle. The canvas is
modelled for stroke-level claims as the trace of operations painted onto
it since the last clear. -/
inductive DrawOp where
  | line (pt1 pt2 : Point) (color : Color) (thickness : ℕ) : DrawOp
  | circleFilled (center : Point) (radius : ℕ) (color : Color) : DrawOp
deriving DecidableEq

/-- The mutable state of the `VirtualCanvas` application object
(main.py `VirtualCanvas.__init__`), with the canvas held as its operation
trace. The camera, menu object and canvas geometry are configuration, not
state, and are passed to the step functions separately. -/
structure AppState where
  tracker : TrackerState
  current_hover : Option Button
  last_message : String
  canvas : List DrawOp
  current_color : Color
  brush_size : ℕ
  current_tool : String
  is_eraser : Bool
  prev_pos : Option Point
  show_canvas : Bool
  show_colors : Bool
  show_brush_sizes : Bool
deriving DecidableEq

/-- main.py `VirtualCanvas.__init__`: the drawing and UI state at startup
(current_color = COLORS[0], brush_size = DEFAULT_BRUSH_SIZE = 10). -/
def initApp : AppState :=
  { tracker := initTracker
    current_hover := none
    last_message := ""
    canvas := []
    current_color := RED
    brush_size := 10
    current_tool := ""
    is_eraser := false
    prev_pos := none
    show_canvas := false
    show_colors := false
    show_brush_sizes := false }

/-- main.py `VirtualCanvas.is_within_canvas`: canvas-local coordinates are
valid iff 0 <= x < canvas width and 0 <= y < canvas height, where
`canvas_size` is the (height, width) pair. -/
def is_within_canvas (canvas_size : ℕ × ℕ) (canvas_x canvas_y : ℤ) : Bool :=
  decide (0 ≤ canvas_x ∧ canvas_x < (canvas_size.2 : ℤ) ∧
    0 ≤ canvas_y ∧ canvas_y < (canvas_size.1 : ℤ))

/-- main.py `VirtualCanvas.draw_on_canvas`: seed `prev_pos` with the
current point when it is none, then paint a filled white circle of radius
`brush_size * ERASER_BRUSH_MULTIPLIER` in eraser mode or a line from the
previous point in pen mode, and remember the current point. -/
def draw_on_canvas (s : AppState) (canvas_x canvas_y : ℤ) : AppState :=
  let prev := s.prev_pos.getD (canvas_x, canvas_y)
  let canvas1 :=
    if s.is_eraser then
      s.canvas ++ [DrawOp.circleFilled (canvas_x, canvas_y) (s.brush_size * 2) WHITE]
    else s.canvas
  let canvas2 :=
    if ! s.is_eraser then
      canvas1 ++ [DrawOp.line prev (canvas_x, canvas_y) s.current_color s.brush_size]
    else canvas1
  { s with canvas := canvas2, prev_pos := some (canvas_x, canvas_y) }

/-- main.py `VirtualCanvas.handle_drawing`: bail out when the canvas is
hidden or no fingertip exists; translate the fingertip into canvas-local
coordinates by subtracting the canvas origin (stored as (y, x)); reset the
stroke-continuity pointer and bail out when the point is out of bounds;
otherwise draw. -/
def handle_drawing (canvas_origin : Point) (canvas_size : ℕ × ℕ) (s : AppState)
    (finger_pos : Option Point) : AppState :=
  match finger_pos with
  | none => s
  | some p =>
    if ! s.show_canvas then s
    else
      let canvas_x := p.1 - canvas_origin.2
      let canvas_y := p.2 - canvas_origin.1
      if ! is_within_canvas canvas_size canvas_x canvas_y then { s with prev_pos := none }
      else draw_on_canvas s canvas_x canvas_y

/-- main.py `VirtualCanvas.toggle_ui_states`: the Board button flips the
tracker's drawing mode together with the canvas visibility; the Colors,
Pen Size and Eraser buttons flip their own flags; anything else changes
nothing. Dispatch is by button label. -/
def toggle_ui_states (s : AppState) (b : Button) : AppState :=
  if b.label = "Board" then
    { s with tracker := toggle_drawing_mode s.tracker, show_canvas := ! s.show_canvas }
  else if b.label = "Colors" then { s with show_colors := ! s.show_colors }
  else if b.label = "Pen Size" then { s with show_brush_sizes := ! s.show_brush_sizes }
  else if b.label = "Eraser" then { s with is_eraser := ! s.is_eraser }
  else s

/-- main.py `VirtualCanvas.select_color`: a click on a registry color
button installs its color and leaves eraser mode. -/
def select_color (m : Menu) (s : AppState) (b : Button) : AppState :=
  if b ∈ m.color_buttons then { s with current_color := b.color, is_eraser := false } else s

/-- main.py `VirtualCanvas.select_size`: a click on a registry pen-size
button installs its size payload (every pen-size button carries one). -/
def select_size (m : Menu) (s : AppState) (b : Button) : AppState :=
  if b ∈ m.pen_size_buttons then { s with brush_size := b.value.getD s.brush_size } else s

/-- main.py `VirtualCanvas.select_shape`: a click on a registry shape
button installs its label as the tool (the registry never contains any). -/
def select_shape (m : Menu) (s : AppState) (b : Button) : AppState :=
  if b ∈ m.shape_buttons then { s with current_tool := b.label, is_eraser := false } else s

/-- main.py `VirtualCanvas.clear_canvas`: a click on the clear button
resets the whole canvas to its white background, i.e. erases every painted
operation of the trace. -/
def clear_canvas (m : Menu) (s : AppState) (b : Button) : AppState :=
  if b = m.clear_button then { s with canvas := [] } else s

/-- main.py `VirtualCanvas.handle_button_action`: the five dispatchers in
source order. -/
def handle_button_action (m : Menu) (s : AppState) (b : Button) : AppState :=
  clear_canvas m (select_shape m (select_size m (select_color m (toggle_ui_states s b) b) b) b) b

/-- main.py `VirtualCanvas.handle_ui_interaction`: skipped entirely when no
fingertip exists (in particular `detect_click` is not reached); otherwise
evaluate `detect_click`, feed position and click into the menu, record the
hover target and status message, and execute the activated button's
action. -/
def handle_ui_interaction (m : Menu) (s : AppState) (finger_pos : Option Point)
    (hands : List Hand) : AppState :=
  match finger_pos with
  | none => s
  | some p =>
    let clickState := detect_click s.tracker hands
    let inter := handle_interaction m s.last_message (some p) clickState.1
    let s1 := { s with tracker := clickState.2, current_hover := inter.2.1,
                       last_message := inter.2.2 }
    match inter.1 with
    | none => s1
    | some b => handle_button_action m s1 b

/-- The drawing half of main.py `VirtualCanvas.process_frame` (lines up to
`handle_drawing`): run the tracker's frame update, read the selected
hand's draw signal (`get_finger_info`), reset the stroke-continuity
pointer when the draw signal is off, and run the drawing stage when the
board mode and the draw signal are both on. -/
def frame_draw_stage (canvas_origin : Point) (canvas_size : ℕ × ℕ)
    (s : AppState) (hands : List Hand) : AppState :=
  let s0 := { s with tracker := tracker_process_frame s.tracker hands }
  let will_draw := s0.tracker.draw_modes.headD false
  let s1 := if ! will_draw then { s0 with prev_pos := none } else s0
  if s1.tracker.is_drawing_mode && will_draw then
    handle_drawing canvas_origin canvas_size s1 (get_hand_position hands)
  else s1

/-- main.py `VirtualCanvas.process_frame` (state-relevant part, for one
frame whose detection result is `hands`): the drawing half above followed
by the UI interaction stage on the same fingertip position. Compositing
and display write only the video frame and are modelled by
`blend_canvas_onto_frame` below. -/
def process_frame (m : Menu) (canvas_origin : Point) (canvas_size : ℕ × ℕ)
    (s : AppState) (hands : List Hand) : AppState :=
  handle_ui_interaction m (frame_draw_stage canvas_origin canvas_size s hands)
    (get_hand_position hands) hands

/-- The application loop (main.py `VirtualCanvas.run`): fold
`process_frame` over the successive frames' detection results. -/
def run_app (m : Menu) (canvas_origin : Point) (canvas_size : ℕ × ℕ)
    (s : AppState) (frames : List (List Hand)) : AppState :=
  frames.foldl (process_frame m canvas_origin canvas_size) s

/-- A pixel buffer: the color stored at each integer (y, x) position. Both
the video frame and the canvas buffer of main.py are uint8 BGR arrays;
their contents are modelled as total functions on integer indices (the
source only ever addresses indices inside the allocated extent). -/
abbrev PixelBuf := ℤ → ℤ → Color

/-- main.py `VirtualCanvas.clear_canvas` body (`self.canvas[:] = WHITE`) on
the pixel level: every pixel of the canvas buffer becomes the white
background fill. -/
def clear_canvas_buf (_canvas : PixelBuf) : PixelBuf :=
  fun _ _ => WHITE

/-- One channel of `cv.addWeighted` with the weights of
`VirtualCanvas.blend_canvas_onto_frame` (alpha = 0.5, beta = 0.5,
gamma = 0.5): the rounded weighted sum, saturated to the uint8 range. -/
def blend_channel (f c : ℕ) : ℕ :=
  min 255 ((f + c + 1) / 2)

/-- Pixel-wise blend of a frame pixel with a canvas pixel. -/
def blend_pixel (f c : Color) : Color :=
  (blend_channel f.1 c.1, blend_channel f.2.1 c.2.1, blend_channel f.2.2 c.2.2)

/-- main.py `VirtualCanvas.blend_canvas_onto_frame`: write the blend of the
frame sub-region starting at `canvas_origin` (stored as (y, x)) of extent
`canvas_size` (stored as (height, width)) with the canvas buffer back into
that sub-region of the frame; the canvas buffer is only read. The Python
method mutates `frame` in place and never assigns to `self.canvas`; its
functional rendering returns both buffers, the canvas one passed through
untouched. -/
def blend_canvas_onto_frame (canvas_origin : Point) (canvas_size : ℕ × ℕ)
    (frame canvas : PixelBuf) : PixelBuf × PixelBuf :=
  (fun y x =>
    if canvas_origin.1 ≤ y ∧ y < canvas_origin.1 + (canvas_size.1 : ℤ) ∧
        canvas_origin.2 ≤ x ∧ x < canvas_origin.2 + (canvas_size.2 : ℤ) then
      blend_pixel (frame y x) (canvas (y - canvas_origin.1) (x - canvas_origin.2))
    else frame y x,
   canvas)

/-- Claim C5: the raised-finger predicate returns true iff the four joint
y-coordinates satisfy the strict chain tip < dip < pip < mcp; any equality
or reversed ordering among adjacent joints yields false. -/
theorem c5_finger_raised (tip dip pip mcp : ℚ) :
    (is_finger_raised ⟨tip, dip, pip, mcp⟩ = true ↔ (tip < dip ∧ dip < pip ∧ pip < mcp))
    ∧ (tip = dip ∨ dip = pip ∨ pip = mcp ∨ dip < tip ∨ pip < dip ∨ mcp < pip →
        is_finger_raised ⟨tip, dip, pip, mcp⟩ = false) := by
  constructor
  · simp [is_finger_raised, and_assoc]
  · intro hbad
    cases hb : is_finger_raised ⟨tip, dip, pip, mcp⟩ with
    | false => rfl
    | true =>
      have hchain : tip < dip ∧ dip < pip ∧ pip < mcp := by
        have := hb
        simpa [is_finger_raised, and_assoc] using this
      rcases hbad with h | h | h | h | h | h <;>
        exact absurd hchain (by rintro ⟨h1, h2, h3⟩; simp_all; try linarith)

/-- Witness for C5 at a concrete tie between the tip and DIP joints. -/
theorem c5_finger_raised_witness :
    ((1 : ℚ) = 1 ∨ (1 : ℚ) = 3 ∨ (3 : ℚ) = 4 ∨ (1 : ℚ) < 1 ∨ (3 : ℚ) < 1 ∨ (4 : ℚ) < 3)
    ∧ is_finger_raised ⟨1, 1, 3, 4⟩ = false :=
  ⟨Or.inl rfl, (c5_finger_raised 1 1 3 4).2 (Or.inl rfl)⟩

/-- Claim C7: the circular hit test holds iff the squared offset is
strictly below the squared radius; a point at Euclidean distance exactly
the radius is outside, and one at distance radius − 1 (radius ≥ 1) is
inside. -/
theorem c7_hit_test (b : Button) (x y : ℤ) :
    (is_over b x y = true ↔ (x - b.center_x) ^ 2 + (y - b.center_y) ^ 2 < b.radius ^ 2)
    ∧ ((x - b.center_x) ^ 2 + (y - b.center_y) ^ 2 = b.radius ^ 2 → is_over b x y = false)
    ∧ (1 ≤ b.radius → (x - b.center_x) ^ 2 + (y - b.center_y) ^ 2 = (b.radius - 1) ^ 2 →
        is_over b x y = true) := by
  refine ⟨by simp [is_over], ?_, ?_⟩
  · intro heq
    simp [is_over, heq]
  · intro hr heq
    simp only [is_over, decide_eq_true_iff, heq]
    nlinarith

/-- Witness for C7: for a radius-2 button at the origin, the point (2, 0)
(distance exactly 2) is outside and the point (1, 0) (distance 1 = 2 − 1)
is inside. -/
theorem c7_hit_test_witness :
    (((2 : ℤ) - 0) ^ 2 + ((0 : ℤ) - 0) ^ 2 = (2 : ℤ) ^ 2
      ∧ is_over ⟨0, 0, 2, RED, "", false, none⟩ 2 0 = false)
    ∧ ((1 : ℤ) ≤ 2 ∧ ((1 : ℤ) - 0) ^ 2 + ((0 : ℤ) - 0) ^ 2 = ((2 : ℤ) - 1) ^ 2
      ∧ is_over ⟨0, 0, 2, RED, "", false, none⟩ 1 0 = true) :=
  ⟨⟨by decide, (c7_hit_test ⟨0, 0, 2, RED, "", false, none⟩ 2 0).2.1 (by decide)⟩,
   ⟨by decide, by decide,
    (c7_hit_test ⟨0, 0, 2, RED, "", false, none⟩ 1 0).2.2 (by decide) (by decide)⟩⟩

/-- Claim C2: with a detected selected hand, `detect_click` reports a click
iff the stored previous frame showed both fingers raised, this frame shows
the index finger raised and the middle finger lowered, and no click was
reported on the previous frame; afterwards the three latches hold this
frame's index state, middle state and click result. -/
theorem c2_click_detection (s : TrackerState) (h : Hand) (rest : List Hand) :
    ((detect_click s (h :: rest)).1 = true ↔
      (s.prev_index_up = true ∧ s.prev_middle_up = true ∧
        is_finger_raised h.index = true ∧ is_finger_raised h.middle = false ∧
        s.is_clicked_prev = false))
    ∧ (detect_click s (h :: rest)).2.prev_index_up = is_finger_raised h.index
    ∧ (detect_click s (h :: rest)).2.prev_middle_up = is_finger_raised h.middle
    ∧ (detect_click s (h :: rest)).2.is_clicked_prev = (detect_click s (h :: rest)).1 := by
  refine ⟨?_, rfl, rfl, rfl⟩
  simp [detect_click, is_click_happening, and_assoc]

/-- Claim C8: clearing sets every pixel of the canvas buffer to the white
background fill, and clearing twice equals clearing once. -/
theorem c8_clear_idempotent :
    (∀ (canvas : PixelBuf) (y x : ℤ), clear_canvas_buf canvas y x = WHITE)
    ∧ (∀ canvas : PixelBuf, clear_canvas_buf (clear_canvas_buf canvas) = clear_canvas_buf canvas) :=
  ⟨fun _ _ _ => rfl, fun _ => rfl⟩

/-- Claim C1 (counterexample): updating the interpreter with zero detected
hands after a frame that left both previous-finger latches set and a
draw-mode entry recorded returns a TRUE draw signal (the stale
`draw_modes[0]`), and leaves the debounce latches at (true, true, false)
instead of advancing all three to false as the claim states. -/
theorem c1_zero_hands_counterexample :
    (interpreter_update ⟨true, true, false, false, [true]⟩ []).1 = (none, true, false)
    ∧ (interpreter_update ⟨true, true, false, false, [true]⟩ []).2 =
        ⟨true, true, false, false, [true]⟩ := by
  decide

/-- Claim C1 as amended: for every frame in which the interpreter is
updated with zero detected hands, it returns no fingertip position and a
false click signal, while the draw signal is whatever head the retained
`draw_modes` list has (false only when that list is empty) and the whole
tracker state — the debounce latches included — is left unchanged rather
than advanced. -/
theorem c1_zero_hands_amended (s : TrackerState) :
    interpreter_update s [] = ((none, s.draw_modes.headD false, false), s) := rfl

/-- Auxiliary for C3: running the click state machine over a concatenated
observation sequence splits at the intermediate state. -/
theorem click_run_append (s : TrackerState) (pre post : List FingerObs) :
    click_run s (pre ++ post) = click_run s pre ++ click_run (click_state_after s pre) post := by
  induction pre generalizing s with
  | nil => rfl
  | cons o rest ih =>
    simp only [List.cons_append, click_run, ih, List.cons_append, List.append_eq]
    simp [click_state_after, List.foldl_cons]

/-- Claim C3: along any observation sequence, a frame whose immediately
preceding observation already showed the middle finger lowered can never
click (so within a contiguous run of release-pose frames only the first
can fire, i.e. at most one click per maximal qualifying hold; the
`click_run_append` split extends this from the head of the sequence to any
position); concretely, [armed, armed, released, released] clicks exactly
on its first released frame and [armed, released, armed, released] clicks
twice. -/
theorem c3_click_debounce :
    (∀ (s : TrackerState) (o1 o2 : FingerObs) (rest : List FingerObs),
      o1.2 = false → (click_run s (o1 :: o2 :: rest))[1]? = some false)
    ∧ click_run initTracker [armedPose, armedPose, releasedPose, releasedPose] =
        [false, false, true, false]
    ∧ click_run initTracker [armedPose, releasedPose, armedPose, releasedPose] =
        [false, true, false, true] := by
  refine ⟨?_, by decide, by decide⟩
  intro s o1 o2 rest h
  simp [click_run, is_click_happening, update_previous_states, h]

/-- Witness for C3 at the release pose: the frame after a released frame
never clicks. -/
theorem c3_click_debounce_witness :
    (releasedPose.2 = false)
    ∧ (click_run ⟨true, true, false, false, []⟩ [releasedPose, releasedPose])[1]? = some false :=
  ⟨rfl, c3_click_debounce.1 ⟨true, true, false, false, []⟩ releasedPose releasedPose [] rfl⟩

/-- Auxiliary for C6: the registry scan of `handle_interaction_go` is
determined by the first button of the walked list whose hit test succeeds
(`List.find?`): no hit leaves everything unchanged with no hover; a hit
becomes the hover target, and only with a click does it become the
activated button with the sequential message updates applied. -/
theorem handle_go_eq_find (m : Menu) (msg : String) (x y : ℤ) (ic : Bool) (l : List Button) :
    handle_interaction_go m msg x y ic l =
      match l.find? (fun b => is_over b x y) with
      | none => (none, none, msg)
      | some b =>
        if ic then
          (some b, some b,
            let msg0 := if b ∈ get_all_buttons m then msg else ""
            let msg1 := if b ∈ m.color_buttons then "Selected Color: " ++ color_name b.color
              else msg0
            let msg2 := if b ∈ m.pen_size_buttons then "Pen Thickness: " ++ value_str b.value
              else msg1
            if b = m.eraser_toggle then "Eraser Selected" else msg2)
        else (none, some b, msg) := by
  induction l with
  | nil => rfl
  | cons b rest ih =>
    cases hov : is_over b x y with
    | false => simpa [handle_interaction_go, List.find?, hov] using ih
    | true =>
      cases ic <;> simp [handle_interaction_go, List.find?, hov]

/-- Auxiliary for C6: every color button carries an empty label and no
pen-size marker. -/
theorem color_button_fields {p : Point} {b : Button} (hb : b ∈ create_color_buttons p) :
    b.label = "" ∧ b.is_pen = false := by
  simp only [create_color_buttons, List.mem_map] at hb
  obtain ⟨ic, _, rfl⟩ := hb
  exact ⟨rfl, rfl⟩

/-- Auxiliary for C6: every pen-size button carries the pen-size marker. -/
theorem pen_button_fields {p : Point} {b : Button} (hb : b ∈ create_pen_size_buttons p) :
    b.is_pen = true := by
  simp only [create_pen_size_buttons, List.mem_map] at hb
  obtain ⟨is, _, rfl⟩ := hb
  rfl

/-- Claim C6 (counterexample): on the concrete menu built from toggle
positions (100, 50) and (900, 50), clicking at (820, 50) — the center of
the clear button — activates the Clear button yet leaves the status
message exactly as it was (prior message "A" stays "A", prior message "B"
stays "B"), so no fixed clear-button status text is ever set, contrary to
the claim that a click sets a message for every button role including
clear and the toggles. -/
theorem c6_clear_message_counterexample :
    ((handle_interaction (create_menu (100, 50) (900, 50)) "A" (some (820, 50)) true).1.map
        (fun b => b.label) = some "Clear")
    ∧ (handle_interaction (create_menu (100, 50) (900, 50)) "A" (some (820, 50)) true).2.2 = "A"
    ∧ ((handle_interaction (create_menu (100, 50) (900, 50)) "B" (some (820, 50)) true).1.map
        (fun b => b.label) = some "Clear")
    ∧ (handle_interaction (create_menu (100, 50) (900, 50)) "B" (some (820, 50)) true).2.2 = "B"
    ∧ "A" ≠ "B" := by
  refine ⟨by decide, by decide, by decide, by decide, by decide⟩

/-- Claim C6 as amended: with no position, `handle_interaction` clears the
hover target, returns none and leaves the message untouched; otherwise the
first button of the fixed registry order whose hit test succeeds becomes
the hover target (none hit, no hover) and no further buttons are tested;
without a click nothing is activated and the message is kept; with a click
the hit button is returned and the status message is set for the color
buttons (color name), the pen-size buttons (thickness value) and the
eraser toggle ("Eraser Selected") — but clicking the clear button or the
board, pen-size and colors toggles leaves the status message UNCHANGED
(no fixed text exists for them, contrary to the original claim). -/
theorem c6_menu_interaction_amended (bp pp : Point) (msg : String) (p : Point) (ic : Bool) :
    (handle_interaction (create_menu bp pp) msg none ic = (none, none, msg))
    ∧ ((handle_interaction (create_menu bp pp) msg (some p) ic).2.1 =
        (get_all_buttons (create_menu bp pp)).find? (fun b => is_over b p.1 p.2))
    ∧ (ic = false → (handle_interaction (create_menu bp pp) msg (some p) ic).1 = none
        ∧ (handle_interaction (create_menu bp pp) msg (some p) ic).2.2 = msg)
    ∧ ((get_all_buttons (create_menu bp pp)).find? (fun b => is_over b p.1 p.2) = none →
        handle_interaction (create_menu bp pp) msg (some p) ic = (none, none, msg))
    ∧ (∀ b, (get_all_buttons (create_menu bp pp)).find? (fun b => is_over b p.1 p.2) = some b →
        ic = true →
        (handle_interaction (create_menu bp pp) msg (some p) ic).1 = some b
        ∧ (b ∈ (create_menu bp pp).color_buttons →
            (handle_interaction (create_menu bp pp) msg (some p) ic).2.2 =
              "Selected Color: " ++ color_name b.color)
        ∧ (b ∈ (create_menu bp pp).pen_size_buttons →
            (handle_interaction (create_menu bp pp) msg (some p) ic).2.2 =
              "Pen Thickness: " ++ value_str b.value)
        ∧ (b = (create_menu bp pp).eraser_toggle →
            (handle_interaction (create_menu bp pp) msg (some p) ic).2.2 = "Eraser Selected")
        ∧ (b = (create_menu bp pp).clear_button ∨ b = (create_menu bp pp).board_toggle ∨
            b = (create_menu bp pp).pen_toggle ∨ b = (create_menu bp pp).color_toggle →
            (handle_interaction (create_menu bp pp) msg (some p) ic).2.2 = msg)) := by
  refine ⟨rfl, ?_, ?_, ?_, ?_⟩
  · rw [handle_interaction, handle_go_eq_find]
    cases hf : (get_all_buttons (create_menu bp pp)).find? (fun b => is_over b p.1 p.2) with
    | none => rfl
    | some b => cases ic <;> rfl
  · intro hic
    rw [handle_interaction, handle_go_eq_find, hic]
    cases hf : (get_all_buttons (create_menu bp pp)).find? (fun b => is_over b p.1 p.2) with
    | none => exact ⟨rfl, rfl⟩
    | some b => exact ⟨rfl, rfl⟩
  · intro hf
    rw [handle_interaction, handle_go_eq_find, hf]
  · intro b hf hic
    have hball : b ∈ get_all_buttons (create_menu bp pp) := List.mem_of_find?_eq_some hf
    rw [handle_interaction, handle_go_eq_find, hf, hic]
    refine ⟨rfl, ?_, ?_, ?_, ?_⟩
    · intro hcol
      have hfac := color_button_fields hcol
      have hnpen : b ∉ (create_menu bp pp).pen_size_buttons := fun hmem =>
        by simp [pen_button_fields hmem] at hfac
      have hner : b ≠ (create_menu bp pp).eraser_toggle := fun heq => by
        rw [heq] at hfac
        simp [create_menu] at hfac
      simp [hball, hcol, hnpen, hner]
    · intro hpen
      have hfac := pen_button_fields hpen
      have hncol : b ∉ (create_menu bp pp).color_buttons := fun hmem =>
        by simp [(color_button_fields hmem).2] at hfac
      have hner : b ≠ (create_menu bp pp).eraser_toggle := fun heq => by
        rw [heq] at hfac
        simp [create_menu] at hfac
      simp [hball, hpen, hncol, hner]
    · intro her
      simp [her]
    · intro hother
      have hlab : b.label = "Clear" ∨ b.label = "Board" ∨ b.label = "Pen Size" ∨
          b.label = "Colors" := by
        rcases hother with h | h | h | h <;> rw [h] <;> simp [create_menu]
      have hpen_flag : b.is_pen = false := by
        rcases hother with h | h | h | h <;> rw [h] <;> simp [create_menu]
      have hncol : b ∉ (create_menu bp pp).color_buttons := fun hmem => by
        have := (color_button_fields hmem).1
        rcases hlab with h | h | h | h <;> rw [this] at h <;> simp at h
      have hnpen : b ∉ (create_menu bp pp).pen_size_buttons := fun hmem =>
        by simp [pen_button_fields hmem] at hpen_flag
      have hner : b ≠ (create_menu bp pp).eraser_toggle := fun heq => by
        rw [heq] at hlab
        simp [create_menu] at hlab
      simp [hball, hncol, hnpen, hner]

/-- Witness for C6: on the menu built from (100, 50) and (900, 50), the
point (585, 50) first hits the red color button, and clicking there sets
the status message to the red color's name. -/
theorem c6_menu_interaction_amended_witness :
    ((get_all_buttons (create_menu (100, 50) (900, 50))).find?
        (fun b => is_over b ((585 : ℤ), (50 : ℤ)).1 ((585 : ℤ), (50 : ℤ)).2) =
      some ⟨585, 50, 25, RED, "", false, none⟩)
    ∧ (⟨585, 50, 25, RED, "", false, none⟩ : Button) ∈ (create_menu (100, 50) (900, 50)).color_buttons
    ∧ (handle_interaction (create_menu (100, 50) (900, 50)) "A" (some (585, 50)) true).2.2 =
        "Selected Color: " ++ color_name RED := by
  refine ⟨by decide, by decide, ?_⟩
  exact ((c6_menu_interaction_amended (100, 50) (900, 50) "A" (585, 50) true).2.2.2.2
    ⟨585, 50, 25, RED, "", false, none⟩ (by decide) rfl).2.1 (by decide)

/-- Auxiliary for C9/C10: `toggle_ui_states` never touches the canvas. -/
theorem toggle_ui_states_canvas (s : AppState) (b : Button) :
    (toggle_ui_states s b).canvas = s.canvas := by
  unfold toggle_ui_states
  repeat' split
  all_goals rfl

/-- Auxiliary for C9/C10: `select_color` never touches the canvas. -/
theorem select_color_canvas (m : Menu) (s : AppState) (b : Button) :
    (select_color m s b).canvas = s.canvas := by
  unfold select_color
  split <;> rfl

/-- Auxiliary for C9/C10: `select_size` never touches the canvas. -/
theorem select_size_canvas (m : Menu) (s : AppState) (b : Button) :
    (select_size m s b).canvas = s.canvas := by
  unfold select_size
  split <;> rfl

/-- Auxiliary for C9/C10: `select_shape` never touches the canvas. -/
theorem select_shape_canvas (m : Menu) (s : AppState) (b : Button) :
    (select_shape m s b).canvas = s.canvas := by
  unfold select_shape
  split <;> rfl

/-- Auxiliary for C9: a button action either leaves the canvas untouched
or (for the clear button) resets it to the cleared background. -/
theorem handle_button_action_canvas (m : Menu) (s : AppState) (b : Button) :
    (handle_button_action m s b).canvas = s.canvas
    ∨ (handle_button_action m s b).canvas = [] := by
  unfold handle_button_action clear_canvas
  split
  · right
    rfl
  · left
    rw [select_shape_canvas, select_size_canvas, select_color_canvas, toggle_ui_states_canvas]

/-- Auxiliary for C9: one drawing stage either leaves the canvas untouched
or appends exactly one stroke operation. -/
theorem handle_drawing_canvas (o : Point) (sz : ℕ × ℕ) (s : AppState) (fp : Option Point) :
    (handle_drawing o sz s fp).canvas = s.canvas
    ∨ ∃ op, (handle_drawing o sz s fp).canvas = s.canvas ++ [op] := by
  cases fp with
  | none => exact Or.inl rfl
  | some p =>
    unfold handle_drawing
    cases hsc : s.show_canvas with
    | false => exact Or.inl rfl
    | true =>
      simp only [Bool.not_true, Bool.false_eq_true, if_false, if_true]
      cases hw : is_within_canvas sz (p.1 - o.2) (p.2 - o.1) with
      | false => exact Or.inl rfl
      | true =>
        right
        cases he : s.is_eraser with
        | false =>
          exact ⟨DrawOp.line (s.prev_pos.getD (p.1 - o.2, p.2 - o.1)) (p.1 - o.2, p.2 - o.1)
            s.current_color s.brush_size, by simp [draw_on_canvas, he]⟩
        | true =>
          exact ⟨DrawOp.circleFilled (p.1 - o.2, p.2 - o.1) (s.brush_size * 2) WHITE,
            by simp [draw_on_canvas, he]⟩

/-- Auxiliary for C9: the UI interaction stage either leaves the canvas
untouched or (through a clear-button click) resets it. -/
theorem handle_ui_interaction_canvas (m : Menu) (s : AppState) (fp : Option Point)
    (hands : List Hand) :
    (handle_ui_interaction m s fp hands).canvas = s.canvas
    ∨ (handle_ui_interaction m s fp hands).canvas = [] := by
  cases fp with
  | none => exact Or.inl rfl
  | some p =>
    unfold handle_ui_interaction
    dsimp only
    split
    · exact Or.inl rfl
    · exact handle_button_action_canvas m _ _

/-- Auxiliary for C9: the drawing half of a frame either leaves the canvas
untouched or appends exactly one stroke operation. -/
theorem frame_draw_stage_canvas (o : Point) (sz : ℕ × ℕ) (s : AppState) (hands : List Hand) :
    (frame_draw_stage o sz s hands).canvas = s.canvas
    ∨ ∃ op, (frame_draw_stage o sz s hands).canvas = s.canvas ++ [op] := by
  unfold frame_draw_stage
  dsimp only
  split <;> split
  all_goals
    first
      | exact handle_drawing_canvas o sz _ (get_hand_position hands)
      | exact Or.inl rfl

/-- Claim C9: compositing returns the canvas buffer unchanged and writes
only the designated sub-region of the display frame (pixels outside it
keep their frame value, pixels inside become the weighted blend); and at
the pipeline level one frame step either leaves the canvas trace
untouched, appends a single stroke operation, or resets it through the
clear action — so strokes persist across frames until cleared. -/
theorem c9_compositing :
    (∀ (o : Point) (sz : ℕ × ℕ) (frame canvas : PixelBuf),
      (blend_canvas_onto_frame o sz frame canvas).2 = canvas)
    ∧ (∀ (o : Point) (sz : ℕ × ℕ) (frame canvas : PixelBuf) (y x : ℤ),
        ¬(o.1 ≤ y ∧ y < o.1 + (sz.1 : ℤ) ∧ o.2 ≤ x ∧ x < o.2 + (sz.2 : ℤ)) →
        (blend_canvas_onto_frame o sz frame canvas).1 y x = frame y x)
    ∧ (∀ (o : Point) (sz : ℕ × ℕ) (frame canvas : PixelBuf) (y x : ℤ),
        (o.1 ≤ y ∧ y < o.1 + (sz.1 : ℤ) ∧ o.2 ≤ x ∧ x < o.2 + (sz.2 : ℤ)) →
        (blend_canvas_onto_frame o sz frame canvas).1 y x =
          blend_pixel (frame y x) (canvas (y - o.1) (x - o.2)))
    ∧ (∀ (m : Menu) (o : Point) (sz : ℕ × ℕ) (s : AppState) (hands : List Hand),
        (process_frame m o sz s hands).canvas = s.canvas
        ∨ (∃ op, (process_frame m o sz s hands).canvas = s.canvas ++ [op])
        ∨ (process_frame m o sz s hands).canvas = []) := by
  refine ⟨fun o sz frame canvas => rfl, ?_, ?_, ?_⟩
  · intro o sz frame canvas y x h
    simp [blend_canvas_onto_frame, h]
  · intro o sz frame canvas y x h
    simp [blend_canvas_onto_frame, h]
  · intro m o sz s hands
    rcases handle_ui_interaction_canvas m (frame_draw_stage o sz s hands)
        (get_hand_position hands) hands with h | h
    · rcases frame_draw_stage_canvas o sz s hands with h2 | ⟨op, h2⟩
      · left
        rw [process_frame, h, h2]
      · right
        left
        exact ⟨op, by rw [process_frame, h, h2]⟩
    · right
      right
      rw [process_frame, h]

/-- Witness for C9: with the canvas region anchored at (0, 0) with extent
1 × 1, the frame pixel at (5, 5) lies outside the region and keeps its
value, while the pixel at (0, 0) lies inside and becomes the blend. -/
theorem c9_compositing_witness :
    (¬((0 : ℤ) ≤ 5 ∧ (5 : ℤ) < 0 + ((1 : ℕ) : ℤ) ∧ (0 : ℤ) ≤ 5 ∧ (5 : ℤ) < 0 + ((1 : ℕ) : ℤ))
      ∧ (blend_canvas_onto_frame (0, 0) (1, 1) (fun _ _ => RED) (fun _ _ => WHITE)).1 5 5 =
          (fun _ _ => RED : PixelBuf) 5 5)
    ∧ (((0 : ℤ) ≤ 0 ∧ (0 : ℤ) < 0 + ((1 : ℕ) : ℤ) ∧ (0 : ℤ) ≤ 0 ∧ (0 : ℤ) < 0 + ((1 : ℕ) : ℤ))
      ∧ (blend_canvas_onto_frame (0, 0) (1, 1) (fun _ _ => RED) (fun _ _ => WHITE)).1 0 0 =
          blend_pixel ((fun _ _ => RED : PixelBuf) 0 0)
            ((fun _ _ => WHITE : PixelBuf) ((0 : ℤ) - 0) ((0 : ℤ) - 0))) := by
  refine ⟨⟨by decide, ?_⟩, ⟨by decide, ?_⟩⟩
  · exact c9_compositing.2.1 (0, 0) (1, 1) (fun _ _ => RED) (fun _ _ => WHITE) 5 5 (by decide)
  · exact c9_compositing.2.2.1 (0, 0) (1, 1) (fun _ _ => RED) (fun _ _ => WHITE) 0 0 (by decide)

/-- Auxiliary for C10: the tracker's frame update never touches the board
drawing-mode flag. -/
theorem tracker_process_frame_mode (s : TrackerState) (hands : List Hand) :
    (tracker_process_frame s hands).is_drawing_mode = s.is_drawing_mode := by
  unfold tracker_process_frame
  split <;> rfl

/-- Auxiliary for C10: click detection never touches the board
drawing-mode flag. -/
theorem detect_click_mode (s : TrackerState) (hands : List Hand) :
    (detect_click s hands).2.is_drawing_mode = s.is_drawing_mode := by
  cases hands <;> rfl

/-- Auxiliary for C10: the drawing stage of a frame touches neither the
tracker nor the canvas-visibility flag. -/
theorem handle_drawing_flags (o : Point) (sz : ℕ × ℕ) (s : AppState) (fp : Option Point) :
    (handle_drawing o sz s fp).show_canvas = s.show_canvas
    ∧ (handle_drawing o sz s fp).tracker = s.tracker := by
  cases fp with
  | none => exact ⟨rfl, rfl⟩
  | some p =>
    unfold handle_drawing
    dsimp only
    repeat' split
    all_goals exact ⟨rfl, rfl⟩

/-- Auxiliary for C10: the drawing half of a frame preserves the
canvas-visibility flag and the board drawing-mode flag. -/
theorem frame_draw_stage_flags (o : Point) (sz : ℕ × ℕ) (s : AppState) (hands : List Hand) :
    (frame_draw_stage o sz s hands).show_canvas = s.show_canvas
    ∧ (frame_draw_stage o sz s hands).tracker.is_drawing_mode = s.tracker.is_drawing_mode := by
  unfold frame_draw_stage
  dsimp only
  split <;> split
  all_goals
    first
      | exact ⟨(handle_drawing_flags o sz _ (get_hand_position hands)).1,
          by rw [(handle_drawing_flags o sz _ (get_hand_position hands)).2]
             exact tracker_process_frame_mode s.tracker hands⟩
      | exact ⟨rfl, tracker_process_frame_mode s.tracker hands⟩

/-- Auxiliary for C10: `toggle_ui_states` flips the canvas-visibility flag
and the tracker's drawing-mode flag together (Board button) or leaves both
alone, so their equality is preserved. -/
theorem toggle_ui_states_flags (s : AppState) (b : Button)
    (h : s.show_canvas = s.tracker.is_drawing_mode) :
    (toggle_ui_states s b).show_canvas = (toggle_ui_states s b).tracker.is_drawing_mode := by
  unfold toggle_ui_states
  repeat' split
  all_goals simp [toggle_drawing_mode, h]

/-- Auxiliary for C10: a button action preserves the equality between the
canvas-visibility flag and the tracker's drawing-mode flag. -/
theorem handle_button_action_flags (m : Menu) (s : AppState) (b : Button)
    (h : s.show_canvas = s.tracker.is_drawing_mode) :
    (handle_button_action m s b).show_canvas =
      (handle_button_action m s b).tracker.is_drawing_mode := by
  unfold handle_button_action clear_canvas select_shape select_size select_color
  have ht := toggle_ui_states_flags s b h
  repeat' split
  all_goals simpa using ht

/-- Auxiliary for C10: the UI interaction stage preserves the equality
between the canvas-visibility flag and the tracker's drawing-mode flag. -/
theorem handle_ui_interaction_flags (m : Menu) (s : AppState) (fp : Option Point)
    (hands : List Hand) (h : s.show_canvas = s.tracker.is_drawing_mode) :
    (handle_ui_interaction m s fp hands).show_canvas =
      (handle_ui_interaction m s fp hands).tracker.is_drawing_mode := by
  cases fp with
  | none => exact h
  | some p =>
    unfold handle_ui_interaction
    dsimp only
    split
    · rw [detect_click_mode]
      exact h
    · apply handle_button_action_flags
      rw [detect_click_mode]
      exact h

/-- Auxiliary for C10: one whole frame step preserves the equality between
the canvas-visibility flag and the tracker's drawing-mode flag. -/
theorem process_frame_flags (m : Menu) (o : Point) (sz : ℕ × ℕ) (s : AppState)
    (hands : List Hand) (h : s.show_canvas = s.tracker.is_drawing_mode) :
    (process_frame m o sz s hands).show_canvas =
      (process_frame m o sz s hands).tracker.is_drawing_mode := by
  unfold process_frame
  apply handle_ui_interaction_flags
  rw [(frame_draw_stage_flags o sz s hands).1, (frame_draw_stage_flags o sz s hands).2]
  exact h

/-- Claim C10: the canvas-visibility flag and the tracker's drawing-mode
flag are both initialized false, and in every state the application can
reach from startup by processing any sequence of frames they are equal —
the Board toggle flips both together and no other operation touches
either, so drawing is only possible while the canvas is shown. -/
theorem c10_board_invariant :
    initApp.show_canvas = false
    ∧ initApp.tracker.is_drawing_mode = false
    ∧ ∀ (m : Menu) (o : Point) (sz : ℕ × ℕ) (frames : List (List Hand)),
        (run_app m o sz initApp frames).show_canvas =
          (run_app m o sz initApp frames).tracker.is_drawing_mode := by
  refine ⟨rfl, rfl, fun m o sz frames => ?_⟩
  have key : ∀ (l : List (List Hand)) (s : AppState),
      s.show_canvas = s.tracker.is_drawing_mode →
      (run_app m o sz s l).show_canvas = (run_app m o sz s l).tracker.is_drawing_mode := by
    intro l
    induction l with
    | nil => exact fun s h => h
    | cons f rest ih =>
      intro s h
      exact ih (process_frame m o sz s f) (process_frame_flags m o sz s f h)
  exact key frames initApp rfl

/-- Auxiliary for C4: `toggle_ui_states` never touches the
stroke-continuity pointer. -/
theorem toggle_ui_states_prev_pos (s : AppState) (b : Button) :
    (toggle_ui_states s b).prev_pos = s.prev_pos := by
  unfold toggle_ui_states
  repeat' split
  all_goals rfl

/-- Auxiliary for C4: a button action never touches the stroke-continuity
pointer. -/
theorem handle_button_action_prev_pos (m : Menu) (s : AppState) (b : Button) :
    (handle_button_action m s b).prev_pos = s.prev_pos := by
  unfold handle_button_action clear_canvas select_shape select_size select_color
  have ht := toggle_ui_states_prev_pos s b
  repeat' split
  all_goals simpa using ht

/-- Auxiliary for C4: the UI interaction stage never touches the
stroke-continuity pointer. -/
theorem handle_ui_interaction_prev_pos (m : Menu) (s : AppState) (fp : Option Point)
    (hands : List Hand) :
    (handle_ui_interaction m s fp hands).prev_pos = s.prev_pos := by
  cases fp with
  | none => rfl
  | some p =>
    unfold handle_ui_interaction
    dsimp only
    split
    · rfl
    · exact handle_button_action_prev_pos m _ _

/-- Claim C4 (counterexample): starting from the initial state, frame 1
(hand in the armed pose over the Board toggle) then frame 2 (release pose
there, clicking the Board toggle on) turn drawing on; frame 3 (draw pose,
fingertip in canvas bounds away from every button) paints and leaves the
stroke-continuity pointer at (100, 200); on frame 4 NO hand is detected —
the fingertip position is absent — yet the pointer is NOT reset to none:
it still holds (100, 200), because the stale draw signal from frame 3 is
still true and `handle_drawing` returns before any reset when the
fingertip is missing. This contradicts the claim that the pointer is reset
whenever the fingertip position is absent. -/
theorem c4_stroke_reset_counterexample :
    get_hand_position [] = none
    ∧ (run_app (create_menu (100, 50) (900, 50)) (100, 100) (300, 400) initApp
        [[⟨⟨1, 2, 3, 4⟩, ⟨1, 2, 3, 4⟩, (100, 50)⟩],
         [⟨⟨1, 2, 3, 4⟩, ⟨4, 3, 2, 1⟩, (100, 50)⟩],
         [⟨⟨1, 2, 3, 4⟩, ⟨4, 3, 2, 1⟩, (200, 300)⟩],
         []]).prev_pos = some (100, 200) := by
  exact ⟨rfl, by decide⟩

/-- Auxiliary for C4: one frame with a single hand in the drawing pose,
fingertip inside the canvas bounds and away from every button, in
pen mode with board and draw mode on: the frame paints one line from the
remembered point (the current one when none is remembered) to the current
canvas point and remembers the current point; the hover clears and the
click latches advance. -/
theorem process_frame_draw_in (m : Menu) (o : Point) (sz : ℕ × ℕ) (s : AppState) (h : Hand)
    (hdm : s.tracker.is_drawing_mode = true) (hsc : s.show_canvas = true)
    (her : s.is_eraser = false)
    (hpi : is_finger_raised h.index = true) (hpm : is_finger_raised h.middle = false)
    (hin : is_within_canvas sz (h.index_tip.1 - o.2) (h.index_tip.2 - o.1) = true)
    (hnohit : ∀ b ∈ get_all_buttons m, is_over b h.index_tip.1 h.index_tip.2 = false) :
    process_frame m o sz s [h] =
      { s with
        tracker := { s.tracker with
          draw_modes := [true]
          prev_index_up := true
          prev_middle_up := false
          is_clicked_prev := s.tracker.prev_index_up && (s.tracker.prev_middle_up &&
            !s.tracker.is_clicked_prev) }
        current_hover := none
        canvas := s.canvas ++ [DrawOp.line
          (s.prev_pos.getD (h.index_tip.1 - o.2, h.index_tip.2 - o.1))
          (h.index_tip.1 - o.2, h.index_tip.2 - o.1) s.current_color s.brush_size]
        prev_pos := some (h.index_tip.1 - o.2, h.index_tip.2 - o.1) } := by
  have hfind : (get_all_buttons m).find? (fun b => is_over b h.index_tip.1 h.index_tip.2) =
      none :=
    List.find?_eq_none.mpr (fun b hb => by simp [hnohit b hb])
  unfold process_frame frame_draw_stage
  dsimp only
  simp [tracker_process_frame, get_hand_position, hpi, hpm, hdm, hsc, her, hin,
    handle_drawing, draw_on_canvas, handle_ui_interaction, handle_interaction,
    handle_go_eq_find, hfind, detect_click, is_click_happening, update_previous_states,
    Bool.and_assoc]

/-- Auxiliary for C4: one frame with a single hand in the drawing pose but
the fingertip OUT of the canvas bounds (and away from every button), with
board and draw mode on: the frame paints nothing and resets the
stroke-continuity pointer; the hover clears and the click latches
advance. -/
theorem process_frame_draw_out (m : Menu) (o : Point) (sz : ℕ × ℕ) (s : AppState) (h : Hand)
    (hdm : s.tracker.is_drawing_mode = true) (hsc : s.show_canvas = true)
    (hpi : is_finger_raised h.index = true) (hpm : is_finger_raised h.middle = false)
    (hout : is_within_canvas sz (h.index_tip.1 - o.2) (h.index_tip.2 - o.1) = false)
    (hnohit : ∀ b ∈ get_all_buttons m, is_over b h.index_tip.1 h.index_tip.2 = false) :
    process_frame m o sz s [h] =
      { s with
        tracker := { s.tracker with
          draw_modes := [true]
          prev_index_up := true
          prev_middle_up := false
          is_clicked_prev := s.tracker.prev_index_up && (s.tracker.prev_middle_up &&
            !s.tracker.is_clicked_prev) }
        current_hover := none
        prev_pos := none } := by
  have hfind : (get_all_buttons m).find? (fun b => is_over b h.index_tip.1 h.index_tip.2) =
      none :=
    List.find?_eq_none.mpr (fun b hb => by simp [hnohit b hb])
  unfold process_frame frame_draw_stage
  dsimp only
  simp [tracker_process_frame, get_hand_position, hpi, hpm, hdm, hsc, hout,
    handle_drawing, handle_ui_interaction, handle_interaction,
    handle_go_eq_find, hfind, detect_click, is_click_happening, update_previous_states,
    Bool.and_assoc]

/-- Claim C4 as amended: the stroke-continuity pointer is reset to none
whenever the selected hand's draw signal is false this frame, and whenever
drawing is attempted (drawing mode on, draw signal on, canvas shown,
fingertip present) with the transformed canvas point out of bounds — but
NOT merely because the fingertip is absent (see the counterexample: with a
stale true draw signal an absent fingertip leaves the pointer untouched).
Consequently, for three consecutive tracked drawing frames P1 (in-bounds),
P2 (out-of-bounds), P3 (in-bounds) away from every button, the painted
operations are exactly a dot mark at P1's point (line from the remembered
start, a lone dot when none was remembered) and a dot mark at P3 — no
segment bridges P1 and P3. -/
theorem c4_stroke_reset_amended :
    (∀ (m : Menu) (o : Point) (sz : ℕ × ℕ) (s : AppState) (hands : List Hand),
      (tracker_process_frame s.tracker hands).draw_modes.headD false = false →
      (process_frame m o sz s hands).prev_pos = none)
    ∧ (∀ (m : Menu) (o : Point) (sz : ℕ × ℕ) (s : AppState) (hands : List Hand) (p : Point),
        s.tracker.is_drawing_mode = true →
        (tracker_process_frame s.tracker hands).draw_modes.headD false = true →
        s.show_canvas = true →
        get_hand_position hands = some p →
        is_within_canvas sz (p.1 - o.2) (p.2 - o.1) = false →
        (process_frame m o sz s hands).prev_pos = none)
    ∧ (∀ (m : Menu) (o : Point) (sz : ℕ × ℕ) (s : AppState) (h1 h2 h3 : Hand),
        s.tracker.is_drawing_mode = true → s.show_canvas = true → s.is_eraser = false →
        s.prev_pos = none →
        is_finger_raised h1.index = true → is_finger_raised h1.middle = false →
        is_within_canvas sz (h1.index_tip.1 - o.2) (h1.index_tip.2 - o.1) = true →
        (∀ b ∈ get_all_buttons m, is_over b h1.index_tip.1 h1.index_tip.2 = false) →
        is_finger_raised h2.index = true → is_finger_raised h2.middle = false →
        is_within_canvas sz (h2.index_tip.1 - o.2) (h2.index_tip.2 - o.1) = false →
        (∀ b ∈ get_all_buttons m, is_over b h2.index_tip.1 h2.index_tip.2 = false) →
        is_finger_raised h3.index = true → is_finger_raised h3.middle = false →
        is_within_canvas sz (h3.index_tip.1 - o.2) (h3.index_tip.2 - o.1) = true →
        (∀ b ∈ get_all_buttons m, is_over b h3.index_tip.1 h3.index_tip.2 = false) →
        (run_app m o sz s [[h1], [h2], [h3]]).canvas =
          s.canvas ++
            [DrawOp.line (h1.index_tip.1 - o.2, h1.index_tip.2 - o.1)
              (h1.index_tip.1 - o.2, h1.index_tip.2 - o.1) s.current_color s.brush_size,
             DrawOp.line (h3.index_tip.1 - o.2, h3.index_tip.2 - o.1)
              (h3.index_tip.1 - o.2, h3.index_tip.2 - o.1) s.current_color s.brush_size]
        ∧ (run_app m o sz s [[h1], [h2], [h3]]).prev_pos =
            some (h3.index_tip.1 - o.2, h3.index_tip.2 - o.1)) := by
  refine ⟨?_, ?_, ?_⟩
  · intro m o sz s hands hwd
    have hwd2 : (tracker_process_frame s.tracker hands).draw_modes.head?.getD false = false := by
      simpa using hwd
    unfold process_frame
    rw [handle_ui_interaction_prev_pos]
    unfold frame_draw_stage
    dsimp only
    simp [hwd2]
  · intro m o sz s hands p hdm hwd hsc hip hob
    have hwd2 : (tracker_process_frame s.tracker hands).draw_modes.head?.getD false = true := by
      simpa using hwd
    unfold process_frame
    rw [handle_ui_interaction_prev_pos]
    unfold frame_draw_stage
    dsimp only
    simp [hwd2, hdm, hip, hsc, hob, handle_drawing, tracker_process_frame_mode]
  · intro m o sz s h1 h2 h3 hdm hsc her hprev hp1i hp1m hin1 hnh1 hp2i hp2m hout2 hnh2
      hp3i hp3m hin3 hnh3
    have e1 := process_frame_draw_in m o sz s h1 hdm hsc her hp1i hp1m hin1 hnh1
    have e2 := process_frame_draw_out m o sz (process_frame m o sz s [h1]) h2
      (by rw [e1]; exact hdm) (by rw [e1]; exact hsc) hp2i hp2m hout2 hnh2
    have e3 := process_frame_draw_in m o sz
      (process_frame m o sz (process_frame m o sz s [h1]) [h2]) h3
      (by rw [e2, e1]; exact hdm) (by rw [e2, e1]; exact hsc) (by rw [e2, e1]; exact her)
      hp3i hp3m hin3 hnh3
    unfold run_app
    simp only [List.foldl_cons, List.foldl_nil]
    rw [e3, e2, e1]
    simp [hprev]

/-- Witness for C4: a concrete three-frame drawing trace with in-bounds,
out-of-bounds, in-bounds fingertips away from every button paints exactly
the two dot marks and no bridging segment. -/
theorem c4_stroke_reset_amended_witness :
    is_within_canvas (300, 400) ((200 : ℤ) - 100) ((300 : ℤ) - 100) = true
    ∧ is_within_canvas (300, 400) ((50 : ℤ) - 100) ((300 : ℤ) - 100) = false
    ∧ is_within_canvas (300, 400) ((250 : ℤ) - 100) ((280 : ℤ) - 100) = true
    ∧ (run_app (create_menu (100, 50) (900, 50)) (100, 100) (300, 400)
        ({ initApp with
          tracker := { initTracker with is_drawing_mode := true }
          show_canvas := true })
        [[⟨⟨1, 2, 3, 4⟩, ⟨4, 3, 2, 1⟩, (200, 300)⟩],
         [⟨⟨1, 2, 3, 4⟩, ⟨4, 3, 2, 1⟩, (50, 300)⟩],
         [⟨⟨1, 2, 3, 4⟩, ⟨4, 3, 2, 1⟩, (250, 280)⟩]]).canvas =
        [DrawOp.line (100, 200) (100, 200) RED 10, DrawOp.line (150, 180) (150, 180) RED 10] := by
  refine ⟨by decide, by decide, by decide, ?_⟩
  have hc := (c4_stroke_reset_amended.2.2 (create_menu (100, 50) (900, 50)) (100, 100) (300, 400)
    ({ initApp with
      tracker := { initTracker with is_drawing_mode := true }
      show_canvas := true })
    ⟨⟨1, 2, 3, 4⟩, ⟨4, 3, 2, 1⟩, (200, 300)⟩ ⟨⟨1, 2, 3, 4⟩, ⟨4, 3, 2, 1⟩, (50, 300)⟩
    ⟨⟨1, 2, 3, 4⟩, ⟨4, 3, 2, 1⟩, (250, 280)⟩
    rfl rfl rfl rfl (by decide) (by decide) (by decide) (by decide) (by decide) (by decide)
    (by decide) (by decide) (by decide) (by decide) (by decide) (by decide)).1
  exact hc.trans (by decide)
